import Mathlib

set_option maxHeartbeats 1000000

/-!
Shallow embedding of the user-directory HTTP server in `src/main.rs`:
a `static mut NEXT_ID: u32` counter, a mutex-guarded `Vec<UserData>`, and
the handlers `add_user`, `list_users`, `delete_user`, `greet_person`,
`hello_world`.  The u32 counter is modelled as `Nat` with an explicit
`% 2 ^ 32` at the single place the code can overflow (`NEXT_ID += 1`).
The embedding is sequential: each handler body runs entirely inside one
mutex critical section, so one handler call is one atomic state transition.
-/

/-- A user record as decoded, stored and serialized by the server
(`struct UserData` in `src/main.rs`): numeric `id` (u32, server-assigned),
`name` (String) and `age` (u32). -/
structure UserData where
  id : Nat
  name : String
  age : Nat
  deriving DecidableEq

/-- The whole mutable server state: the in-memory user vector (the
`Arc<Mutex<Vec<UserData>>>` created in `main`) together with the global
counter `NEXT_ID` (`static mut NEXT_ID: u32 = 0`).  Both are process-global
in the source; the sequential embedding combines them in one record. -/
structure ServerState where
  users : List UserData
  NEXT_ID : Nat
  deriving DecidableEq

/-- The state at process start: empty vector, `NEXT_ID = 0`. -/
def initialState : ServerState := { users := [], NEXT_ID := 0 }

/-- Result of the `delete_user` handler
(`Result<String, (StatusCode, Json<serde_json::Value>)>`): `ok` carries the
plain-text success message, `err` carries the HTTP status code and the
string placed in the `error` field of the JSON body. -/
inductive DeleteResult where
  | ok (msg : String)
  | err (status : Nat) (error : String)
  deriving DecidableEq

/-- Handler `add_user` (src/main.rs lines 72-90): under the lock, overwrite
the decoded payload's `id` with `NEXT_ID`, increment `NEXT_ID` (u32
arithmetic, hence `% 2 ^ 32`), push the record onto the vector, and respond
with the record. -/
def add_user (payload : UserData) (s : ServerState) : UserData × ServerState :=
  let assigned : UserData := { payload with id := s.NEXT_ID }
  (assigned,
    { users := s.users ++ [assigned], NEXT_ID := (s.NEXT_ID + 1) % 2 ^ 32 })

/-- Handler `list_users` (src/main.rs lines 93-99): respond with a clone of
the vector; the state is left untouched. -/
def list_users (s : ServerState) : List UserData × ServerState :=
  (s.users, s)

/-- Handler `delete_user` (src/main.rs lines 102-119): retain the records
whose id differs from the path id, then answer 200 with a success message
if the vector shrank, else 404 with a JSON error naming the id. -/
def delete_user (id : Nat) (s : ServerState) : DeleteResult × ServerState :=
  let initial_len := s.users.length
  let remaining := s.users.filter fun user => user.id != id
  if remaining.length < initial_len then
    (DeleteResult.ok ("User with ID " ++ toString id ++ " successfully deleted."),
      { s with users := remaining })
  else
    (DeleteResult.err 404 ("User with ID " ++ toString id ++ " not found."),
      { s with users := remaining })

/-- Handler `greet_person` (src/main.rs lines 67-69):
`format!("Hello, {}!", name)`. -/
def greet_person (name : String) : String := s!"Hello, {name}!"

/-- Handler `hello_world` (src/main.rs lines 62-64). -/
def hello_world : String := "Hello, world!"

/-- Iterated `add_user`: perform one create per payload, in order, and
return the created users in order together with the final state. -/
def createN : List UserData → ServerState → List UserData × ServerState
  | [], s => ([], s)
  | p :: ps, s =>
    let r := add_user p s
    let rest := createN ps r.2
    (r.1 :: rest.1, rest.2)

/-- Whichever branch `delete_user` takes, the stored vector afterwards is
the filtered one (`retain` mutates the vector before the branch test). -/
theorem delete_user_users (id : Nat) (s : ServerState) :
    (delete_user id s).2.users = s.users.filter fun user => user.id != id := by
  by_cases h : (s.users.filter fun user => user.id != id).length < s.users.length <;>
    simp [delete_user, h]

/-- The final vector after a run of creates is the old vector with the
created users appended in order. -/
theorem createN_users (ps : List UserData) (s : ServerState) :
    (createN ps s).2.users = s.users ++ (createN ps s).1 := by
  induction ps generalizing s with
  | nil => simp [createN]
  | cons p ps ih =>
    simp only [createN, add_user]
    rw [ih]
    simp

/-- A run of creates returns one user per payload. -/
theorem createN_length (ps : List UserData) (s : ServerState) :
    (createN ps s).1.length = ps.length := by
  induction ps generalizing s with
  | nil => simp [createN]
  | cons p ps ih => simp [createN, ih]

/-- Ids handed out by a run of creates: starting from a counter below
`2 ^ 32`, the i-th create (0-based) hands out `(NEXT_ID + i) % 2 ^ 32`. -/
theorem createN_ids (ps : List UserData) (s : ServerState)
    (h : s.NEXT_ID < 2 ^ 32) :
    ((createN ps s).1.map fun u => u.id) =
      (List.range ps.length).map fun i => (s.NEXT_ID + i) % 2 ^ 32 := by
  induction ps generalizing s with
  | nil => simp [createN]
  | cons p ps ih =>
    simp only [createN, add_user, List.map_cons, List.length_cons]
    rw [ih _ (Nat.mod_lt _ (by norm_num)), List.range_succ_eq_map]
    simp only [List.map_cons, List.map_map]
    congr 1
    · omega
    · refine List.map_congr_left fun i _ => ?_
      simp only [Function.comp]
      omega

/-- C1 (amended): for every sequence of at most `2 ^ 32` successful create
operations starting from the initial empty store, the ids assigned to the
created users, in call order, are exactly `0, 1, ..., N-1`: each id appears
exactly once, with no duplicate and no gap, and the i-th create (0-based)
returns a user whose id is `i`.  (Beyond `2 ^ 32` creates the u32 counter
wraps and ids repeat; see the counterexample.) -/
theorem c1_create_ids_range (ps : List UserData) (h : ps.length ≤ 2 ^ 32) :
    ((createN ps initialState).1.map fun u => u.id) = List.range ps.length := by
  rw [createN_ids ps initialState (by decide)]
  have hpt : ∀ i ∈ List.range ps.length,
      ((initialState.NEXT_ID + i) % 2 ^ 32) = i := by
    intro i hi
    have := List.mem_range.mp hi
    simp only [initialState]
    omega
  rw [List.map_congr_left hpt]
  simp

/-- Witness for C1: two creates from the initial store hand out ids 0, 1. -/
theorem c1_create_ids_range_witness :
    ([⟨99, "Alice", 30⟩, ⟨0, "Bob", 25⟩] : List UserData).length ≤ 2 ^ 32 ∧
      ((createN [⟨99, "Alice", 30⟩, ⟨0, "Bob", 25⟩] initialState).1.map
        fun u => u.id) = List.range 2 :=
  ⟨by norm_num, c1_create_ids_range _ (by norm_num)⟩

/-- Counterexample to C1 as stated: after `2 ^ 32 + 1` successful creates
from the initial store the assigned ids contain a duplicate (the u32
counter wraps, so the last create is assigned id 0 again), hence the ids
are not `{0, ..., N-1}` each exactly once. -/
theorem c1_counterexample :
    ¬ ((createN (List.replicate (2 ^ 32 + 1) ⟨0, "Alice", 30⟩) initialState).1.map
        fun u => u.id).Nodup := by
  intro hnd
  rw [createN_ids _ _ (by decide), List.length_replicate, List.range_succ,
    List.map_append] at hnd
  rw [List.nodup_append] at hnd
  obtain ⟨-, -, hdisj⟩ := hnd
  have h0 : (0 : Nat) ∈ (List.range (2 ^ 32)).map
      fun i => (initialState.NEXT_ID + i) % 2 ^ 32 := by
    refine List.mem_map.mpr ⟨0, List.mem_range.mpr (by norm_num), ?_⟩
    simp [initialState]
  refine hdisj h0 ?_
  simp [initialState]

/-- C3: deleting an id that no stored record has answers 404 with the JSON
error naming the id, and leaves the whole state (vector and counter)
unchanged. -/
theorem c3_delete_missing_id (id : Nat) (s : ServerState)
    (h : ∀ u ∈ s.users, u.id ≠ id) :
    delete_user id s =
      (DeleteResult.err 404 ("User with ID " ++ toString id ++ " not found."), s) := by
  have hfilter : (s.users.filter fun user => user.id != id) = s.users :=
    List.filter_eq_self.mpr fun u hu => by simpa using h u hu
  simp only [delete_user, hfilter]
  rw [if_neg (lt_irrefl _)]

/-- Witness for C3: deleting id 0 from a store holding only id 1 answers
404 and changes nothing. -/
theorem c3_delete_missing_id_witness :
    (∀ u ∈ ({ users := [⟨1, "Bob", 25⟩], NEXT_ID := 2 } : ServerState).users,
        u.id ≠ 0) ∧
      delete_user 0 { users := [⟨1, "Bob", 25⟩], NEXT_ID := 2 } =
        (DeleteResult.err 404 "User with ID 0 not found.",
          { users := [⟨1, "Bob", 25⟩], NEXT_ID := 2 }) :=
  ⟨by decide, c3_delete_missing_id 0 _ (by decide)⟩

/-- C4: on a store whose live ids are pairwise distinct and which holds a
record `u₀` with the requested id, `delete_user` answers 200 with the
success message naming the id, removes exactly that one record, and leaves
every other record (value and relative order) and the counter unchanged. -/
theorem c4_delete_existing_id (id : Nat) (s : ServerState) (u₀ : UserData)
    (hnd : (s.users.map fun u => u.id).Nodup) (hu : u₀ ∈ s.users)
    (hid : u₀.id = id) :
    ∃ l₁ l₂,
      s.users = l₁ ++ u₀ :: l₂ ∧
      delete_user id s =
        (DeleteResult.ok ("User with ID " ++ toString id ++ " successfully deleted."),
          { users := l₁ ++ l₂, NEXT_ID := s.NEXT_ID }) := by
  obtain ⟨l₁, l₂, hsplit⟩ := List.append_of_mem hu
  refine ⟨l₁, l₂, hsplit, ?_⟩
  rw [hsplit, List.map_append, List.map_cons, List.nodup_append] at hnd
  obtain ⟨-, hnd₂, hdisj⟩ := hnd
  have h₁ : ∀ u ∈ l₁, u.id ≠ id := by
    intro u hmem heq
    exact hdisj (List.mem_map_of_mem _ hmem) (by simp [heq, hid])
  have h₂ : ∀ u ∈ l₂, u.id ≠ id := by
    intro u hmem heq
    rw [List.nodup_cons] at hnd₂
    exact hnd₂.1 (by rw [hid, ← heq]; exact List.mem_map_of_mem _ hmem)
  have hfilter : (s.users.filter fun user => user.id != id) = l₁ ++ l₂ := by
    rw [hsplit, List.filter_append, List.filter_cons]
    have : (u₀.id != id) = false := by simp [hid]
    rw [this]
    simp only [Bool.false_eq_true, if_false]
    rw [List.filter_eq_self.mpr fun u hu => by simpa using h₁ u hu,
      List.filter_eq_self.mpr fun u hu => by simpa using h₂ u hu]
  have hlen : (l₁ ++ l₂).length < s.users.length := by
    rw [hsplit]
    simp
  simp only [delete_user, hfilter]
  rw [if_pos hlen]

/-- Witness for C4: deleting id 0 from the store holding Alice (id 0) and
Bob (id 1) answers 200 and leaves exactly Bob and the counter. -/
theorem c4_delete_existing_id_witness :
    ∃ l₁ l₂,
      ({ users := [⟨0, "Alice", 30⟩, ⟨1, "Bob", 25⟩], NEXT_ID := 2 } :
          ServerState).users = l₁ ++ (⟨0, "Alice", 30⟩ : UserData) :: l₂ ∧
      delete_user 0 { users := [⟨0, "Alice", 30⟩, ⟨1, "Bob", 25⟩], NEXT_ID := 2 } =
        (DeleteResult.ok "User with ID 0 successfully deleted.",
          { users := l₁ ++ l₂, NEXT_ID := 2 }) :=
  c4_delete_existing_id 0 _ _ (by decide) (by decide) (by decide)

/-- C5: whatever id the decoded request body carries, `add_user` ignores
it: two payloads differing only in their id produce identical results, the
record handed back carries the server counter as id, and it is exactly the
record appended to the store. -/
theorem c5_payload_id_ignored (s : ServerState) (name : String) (age : Nat)
    (id₁ id₂ : Nat) :
    add_user ⟨id₁, name, age⟩ s = add_user ⟨id₂, name, age⟩ s ∧
      (add_user ⟨id₁, name, age⟩ s).1.id = s.NEXT_ID ∧
      (add_user ⟨id₁, name, age⟩ s).2.users =
        s.users ++ [(add_user ⟨id₁, name, age⟩ s).1] := by
  simp [add_user]

/-- C6: the three store operations are total and cannot fail: `add_user`
always returns the created record (the payload with the assigned id) and
grows the vector by one, `list_users` always returns the vector, and
`delete_user` always returns either the 200 success message or the 404
not-found error — no other outcome exists. -/
theorem c6_operations_total (s : ServerState) (p : UserData) (id : Nat) :
    ((add_user p s).1 = { p with id := s.NEXT_ID } ∧
      (add_user p s).2.users.length = s.users.length + 1) ∧
    list_users s = (s.users, s) ∧
    ((delete_user id s).1 =
        DeleteResult.ok ("User with ID " ++ toString id ++ " successfully deleted.") ∨
      (delete_user id s).1 =
        DeleteResult.err 404 ("User with ID " ++ toString id ++ " not found.")) := by
  refine ⟨⟨rfl, by simp [add_user]⟩, rfl, ?_⟩
  by_cases h : (s.users.filter fun user => user.id != id).length < s.users.length
  · left
    simp [delete_user, h]
  · right
    simp [delete_user, h]

/-- C7: `list_users` returns the stored records unchanged and mutates
nothing; in particular after any run of creates from the initial store it
returns exactly the created records, in creation order, one per create. -/
theorem c7_list_snapshot (s : ServerState) (ps : List UserData) :
    list_users s = (s.users, s) ∧
      (list_users (createN ps initialState).2).1 = (createN ps initialState).1 ∧
      (list_users (createN ps initialState).2).1.length = ps.length := by
  refine ⟨rfl, ?_, ?_⟩
  · show (createN ps initialState).2.users = (createN ps initialState).1
    rw [createN_users]
    rfl
  · show (createN ps initialState).2.users.length = ps.length
    rw [createN_users]
    simpa [initialState] using createN_length ps initialState

/-- C8: deleting the same id twice with no operation in between always
makes the second call answer 404 not-found. -/
theorem c8_delete_twice_not_found (id : Nat) (s : ServerState) :
    (delete_user id (delete_user id s).2).1 =
      DeleteResult.err 404 ("User with ID " ++ toString id ++ " not found.") := by
  have hfix : ((delete_user id s).2.users.filter fun user => user.id != id) =
      (delete_user id s).2.users := by
    rw [delete_user_users]
    exact List.filter_eq_self.mpr fun u hu => (List.mem_filter.mp hu).2
  generalize hgen : (delete_user id s).2 = s₁ at hfix ⊢
  simp only [delete_user, hfix]
  rw [if_neg (lt_irrefl _)]

/-- C9: the greeting handler interpolates the path parameter verbatim into
`"Hello, {name}!"` and touches no store state (it does not even take the
state as an argument). -/
theorem c9_greet_verbatim (name : String) :
    greet_person name = "Hello, " ++ name ++ "!" := rfl

/-- C10: after `delete_user` returns — with either outcome — no record
with the requested id remains in the store: the handler's `retain` removes
every matching record, not just the first, even from a (hypothetical) state
holding several records with that id. -/
theorem c10_delete_removes_all (id : Nat) (s : ServerState) :
    ((delete_user id s).2.users.all fun u => u.id != id) = true := by
  rw [delete_user_users, List.all_eq_true]
  exact fun u hu => (List.mem_filter.mp hu).2

